import Mathlib

/-!
Formal model of `tools/generate_favicons.py` (mushroom-labs.github.io).

The script draws a stylized mushroom glyph with Pillow and writes a fixed set
of favicon assets.  We embed the rendering pipeline shallowly:

* An image is a pixel function `Int → Int → RGBA` together with its declared
  width and height.  Pixels are addressed by their integer grid coordinates,
  as Pillow does.
* Every drawing coordinate in the source is of the form `k * s` with
  `s = size / 256.0` and `k` an integer (`cx = cy = size/2 = 128*s`).  Since
  256 is a power of two these Python float values are exact, so we work in
  integer "u-coordinates": 1 u = 1/256 pixel, and the pixel coordinate `x`
  becomes `256*x` u.  A source coordinate `k*s` pixels is exactly `k*size` u.
* `int(...)` truncation of the Python float products `size*0.09`,
  `size*0.08`, `size*0.004`, `size*0.03`, `p*0.22` and `18*s` is modelled as
  natural floor division (`9*size/100` etc.); for the integer inputs that
  arise here the float computation agrees with the exact floor.
* `ImageDraw.ellipse` / `rounded_rectangle` fills are modelled as the ideal
  rasterization: a pixel is painted iff its grid point satisfies the shape
  inequality.  An outline of width `w` is the band between the outer shape
  and the shape inset by `w` pixels (Pillow strokes inward).
* `ImageFilter.GaussianBlur(r)` is modelled as the identity for `r = 0`
  (as in Pillow) and as a normalized `(2r+1) × (2r+1)` window average with
  edge clamping for `r > 0`, applied to each channel independently.
* `Image.alpha_composite` is source-over with straight alpha and floor
  rounding; it is exact in the cases the script exercises (fully transparent
  destination, fully opaque source).

A crucial aliasing fact of the source is modelled explicitly: at line 41 the
handle `d = ImageDraw.Draw(im)` is bound to the canvas object created at
line 40; when `ring` is true, line 50 `im = im.filter(...)` rebinds the local
`im` to a *new* image while `d` keeps drawing into the old object.  The
`draw_mushroom(d, ...)` call at line 70 therefore writes into a discarded
buffer whenever `ring` is true, and the returned image contains no glyph.
-/

namespace FaviconGen

/-- An RGBA color, each channel in `0..255`. -/
structure RGBA where
  r : Nat
  g : Nat
  b : Nat
  a : Nat
  deriving DecidableEq

/-- The fully transparent pixel `(0,0,0,0)`. -/
def clearPx : RGBA := ⟨0, 0, 0, 0⟩

/-- Line 11: mushroom fill. -/
def FG : RGBA := ⟨233, 238, 242, 255⟩

/-- Line 12: dark outline. -/
def OUTL : RGBA := ⟨7, 10, 19, 255⟩

/-- Line 13: eye color. -/
def EYES : RGBA := ⟨15, 18, 24, 255⟩

/-- Line 14: teal ring color. -/
def RINGC : RGBA := ⟨20, 255, 236, 230⟩

/-- Line 15: iOS card background. -/
def CARD : RGBA := ⟨11, 14, 18, 255⟩

/-- A raster image: declared dimensions plus a total pixel function.
Only coordinates in `[0, width) × [0, height)` are ever rendered or read
(blur reads are clamped into this range). -/
structure Image where
  width : Nat
  height : Nat
  pix : Int → Int → RGBA

/-- Grid point `(X, Y)` (u-coordinates) lies in the ellipse inscribed in the
box `[x0, y0, x1, y1]`: `((X-cx)/a)^2 + ((Y-cy)/b)^2 ≤ 1`, cleared of
denominators (multiplied through by `4*a^2*b^2`). -/
def insideEllipseU (x0 y0 x1 y1 X Y : Int) : Bool :=
  decide (((2*X - (x0+x1)) * (y1-y0))^2 + ((2*Y - (y0+y1)) * (x1-x0))^2
            ≤ ((x1-x0) * (y1-y0))^2)

/-- Grid point `(X, Y)` lies in the rounded rectangle with box
`[x0, y0, x1, y1]` and corner radius `R` (all u-coordinates). -/
def insideRoundRectU (x0 y0 x1 y1 R X Y : Int) : Bool :=
  decide (x0 ≤ X) && decide (X ≤ x1) && decide (y0 ≤ Y) && decide (Y ≤ y1) &&
  (!(decide (X < x0 + R) && decide (Y < y0 + R)) ||
     decide ((X - (x0+R))^2 + (Y - (y0+R))^2 ≤ R^2)) &&
  (!(decide (x1 - R < X) && decide (Y < y0 + R)) ||
     decide ((X - (x1-R))^2 + (Y - (y0+R))^2 ≤ R^2)) &&
  (!(decide (X < x0 + R) && decide (y1 - R < Y)) ||
     decide ((X - (x0+R))^2 + (Y - (y1-R))^2 ≤ R^2)) &&
  (!(decide (x1 - R < X) && decide (y1 - R < Y)) ||
     decide ((X - (x1-R))^2 + (Y - (y1-R))^2 ≤ R^2))

/-- `d.ellipse(box, fill=c)`: paint the ellipse pixels with `c`. -/
def drawEllipse (x0 y0 x1 y1 : Int) (c : RGBA) (img : Image) : Image :=
  { img with pix := fun x y =>
      if insideEllipseU x0 y0 x1 y1 (256*x) (256*y) then c else img.pix x y }

/-- `d.ellipse(box, outline=c, width=w)`: paint the band between the ellipse
and the ellipse inset by `w` (u-coordinates) with `c`. -/
def strokeEllipse (x0 y0 x1 y1 w : Int) (c : RGBA) (img : Image) : Image :=
  { img with pix := fun x y =>
      if insideEllipseU x0 y0 x1 y1 (256*x) (256*y) &&
         !(insideEllipseU (x0+w) (y0+w) (x1-w) (y1-w) (256*x) (256*y)) then c
      else img.pix x y }

/-- `d.rounded_rectangle(box, radius=R, fill=c)`. -/
def drawRoundRect (x0 y0 x1 y1 R : Int) (c : RGBA) (img : Image) : Image :=
  { img with pix := fun x y =>
      if insideRoundRectU x0 y0 x1 y1 R (256*x) (256*y) then c else img.pix x y }

/-- `d.rounded_rectangle(box, radius=R, outline=c, width=w)`. -/
def strokeRoundRect (x0 y0 x1 y1 R w : Int) (c : RGBA) (img : Image) : Image :=
  { img with pix := fun x y =>
      if insideRoundRectU x0 y0 x1 y1 R (256*x) (256*y) &&
         !(insideRoundRectU (x0+w) (y0+w) (x1-w) (y1-w) (max (R-w) 0)
             (256*x) (256*y)) then c
      else img.pix x y }

/-- Clamp a coordinate into `[0, size)` (Pillow blurs with edge extension). -/
def clampTo (size : Nat) (v : Int) : Int :=
  if v < 0 then 0 else if (size : Int) - 1 < v then (size : Int) - 1 else v

/-- The window offsets `-rad .. rad`. -/
def offsets (rad : Nat) : List Int :=
  (List.range (2*rad + 1)).map (fun i => Int.ofNat i - Int.ofNat rad)

/-- Sum of `f` over the square window of radius `rad` centered at `(x, y)`. -/
def sumWindow (rad : Nat) (f : Int → Int → Nat) (x y : Int) : Nat :=
  ((offsets rad).map (fun dx => ((offsets rad).map (fun dy => f (x + dx) (y + dy))).sum)).sum

/-- `img.filter(ImageFilter.GaussianBlur(rad))`, modelled as the identity for
radius 0 and otherwise a normalized window average of each channel with edge
clamping. -/
def boxBlur (size rad : Nat) (img : Image) : Image :=
  if rad = 0 then img else
  { img with pix := fun x y =>
      let n := (2*rad + 1) * (2*rad + 1)
      { r := sumWindow rad (fun u v => (img.pix (clampTo size u) (clampTo size v)).r) x y / n
        g := sumWindow rad (fun u v => (img.pix (clampTo size u) (clampTo size v)).g) x y / n
        b := sumWindow rad (fun u v => (img.pix (clampTo size u) (clampTo size v)).b) x y / n
        a := sumWindow rad (fun u v => (img.pix (clampTo size u) (clampTo size v)).a) x y / n } }

/-- Line 57 point function: `lambda p: int(p*0.22)`. -/
def evalPx22 (p : Nat) : Nat := p * 22 / 100

/-- Line 57: `Image.eval(sh, lambda p: int(p*0.22))`, applied by Pillow to
every band of the image — red, green and blue as well as alpha. -/
def evalImg22 (img : Image) : Image :=
  { img with pix := fun x y =>
      { r := evalPx22 (img.pix x y).r
        g := evalPx22 (img.pix x y).g
        b := evalPx22 (img.pix x y).b
        a := evalPx22 (img.pix x y).a } }

/-- Source-over compositing of one pixel (`s` over `d`), straight alpha with
floor rounding.  Exact when `d` is fully transparent or `s` fully opaque. -/
def overPx (d s : RGBA) : RGBA :=
  let sa := s.a
  let outA := sa + d.a * (255 - sa) / 255
  if outA = 0 then clearPx else
  { r := (s.r * sa * 255 + d.r * (d.a * (255 - sa))) / (255 * outA)
    g := (s.g * sa * 255 + d.g * (d.a * (255 - sa))) / (255 * outA)
    b := (s.b * sa * 255 + d.b * (d.a * (255 - sa))) / (255 * outA)
    a := outA }

/-- Line 58: `dst.alpha_composite(src)` (src over dst, pixelwise). -/
def alphaComposite (dst src : Image) : Image :=
  { dst with pix := fun x y => overPx (dst.pix x y) (src.pix x y) }

/-- Lines 17-37, `draw_mushroom(d, cx, cy, s, with_eyes, outline_px)` with
`cx = cy = 128*s` and `s = size/256`.  In u-coordinates the cap box
`[cx-92s, cy-38s-68s, cx+92s, cy-38s+68s]` is `[36, 22, 220, 158]*size`, the
stem box `[cx-36s, cy-6s, cx+36s, cy-6s+96s]` is `[92, 122, 164, 218]*size`
with corner radius `int(18*s) = 18*size/256` pixels, and the eye boxes
(`er = 4*s`, centers `(cx∓16s, cy+22s)`) are `[108,146,116,154]*size` and
`[140,146,148,154]*size`. -/
def draw_mushroom (size : Nat) (with_eyes : Bool) (outlinePx : Nat) (img : Image) : Image :=
  let n : Int := (size : Int)
  let w : Int := 256 * (outlinePx : Int)
  -- Cap (lines 19-23): outline first (if any), then fill
  let i1 := if outlinePx ≠ 0 then strokeEllipse (36*n) (22*n) (220*n) (158*n) w OUTL img else img
  let i2 := drawEllipse (36*n) (22*n) (220*n) (158*n) FG i1
  -- Stem (lines 26-31): r = int(18*s)
  let R : Int := 256 * ((18 * size / 256 : Nat) : Int)
  let i3 := if outlinePx ≠ 0 then strokeRoundRect (92*n) (122*n) (164*n) (218*n) R w OUTL i2 else i2
  let i4 := drawRoundRect (92*n) (122*n) (164*n) (218*n) R FG i3
  -- Eyes (lines 34-37)
  if with_eyes then
    drawEllipse (140*n) (146*n) (148*n) (154*n) EYES
      (drawEllipse (108*n) (146*n) (116*n) (154*n) EYES i4)
  else i4

/-- Line 47: `pad = int(size*0.09)`. -/
def ring_pad (size : Nat) : Nat := size * 9 / 100

/-- Line 48: `width = max(2, int(size*0.08))`. -/
def ring_width (size : Nat) : Nat := max 2 (size * 8 / 100)

/-- Line 50: `max(0, int(size*0.004))`, the Gaussian blur radius applied to
the canvas after the ring is drawn. -/
def ring_blur_radius (size : Nat) : Nat := max 0 (size * 4 / 1000)

/-- Line 56: `max(1, int(size*0.03))`, the blur radius of the drop shadow. -/
def shadow_blur_radius (size : Nat) : Nat := max 1 (size * 3 / 100)

/-- Lines 61-68: the outline width chosen for a given size. -/
def outline_px (size : Nat) : Nat :=
  if size ≤ 32 then (if 24 ≤ size then 2 else 1)
  else if size < 48 then 1 else 0

/-- Lines 61-68: whether eyes are drawn for a given size. -/
def eyes_enabled (size : Nat) : Bool :=
  if size ≤ 32 then false else if size < 48 then false else true

/-- Line 40: `Image.new("RGBA", (size,size), (0,0,0,0))`. -/
def blank (size : Nat) : Image := ⟨size, size, fun _ _ => clearPx⟩

/-- Line 49: `d.ellipse([pad,pad,size-pad,size-pad], outline=RINGC, width=width)`. -/
def drawRing (size : Nat) (img : Image) : Image :=
  let p : Int := (ring_pad size : Int)
  strokeEllipse (256*p) (256*p) (256*((size : Int) - p)) (256*((size : Int) - p))
    (256 * (ring_width size : Int)) RINGC img

/-- The canvas object the handle `d` (line 41) points to after line 49: the
fresh canvas, with the ring stroked onto it when `ring` is true. -/
def dCanvas (size : Nat) (ring : Bool) : Image :=
  if ring then drawRing size (blank size) else blank size

/-- The value of the local `im` after line 50.  When `ring` is true,
`im.filter(...)` returns a new image (blurred copy) and `im` is rebound to
it; `d` keeps pointing at `dCanvas`.  When `ring` is false no filtering
happens and `im` still denotes the object `d` draws into. -/
def imRing (size : Nat) (ring : Bool) : Image :=
  if ring then boxBlur size (ring_blur_radius size) (dCanvas size true)
  else dCanvas size false

/-- Line 55: the shadow silhouette, `draw_mushroom(ds, cx, cy, s,
with_eyes=False)` on a fresh transparent layer (default `outline_px=0`). -/
def silhouette (size : Nat) : Image := draw_mushroom size false 0 (blank size)

/-- Lines 53-57: the finished shadow layer — silhouette, blurred with radius
`max(1, int(size*0.03))`, then every channel scaled by `int(p*0.22)`. -/
def shadowLayer (size : Nat) : Image :=
  evalImg22 (boxBlur size (shadow_blur_radius size) (silhouette size))

/-- Line 58: `im.alpha_composite(sh)` — state of `im` after the shadow is
composited over it. -/
def imShadow (size : Nat) (ring : Bool) : Image :=
  alphaComposite (imRing size ring) (shadowLayer size)

/-- Lines 39-71, `render_icon(size, ring)`.  Line 70 draws the glyph through
`d`, which targets `dCanvas`: when `ring` is false that is the very object
`im` denotes, so the glyph lands on top of the composited shadow; when
`ring` is true it is the stale pre-blur object, and the strokes never reach
the returned image. -/
def render_icon (size : Nat) (ring : Bool) : Image :=
  if ring then imShadow size true
  else draw_mushroom size (eyes_enabled size) (outline_px size) (imShadow size false)

/-- Line 74: the sizes of the PNG loop. -/
def png_sizes : List Nat := [16, 24, 32, 48, 64, 128, 192, 256, 512]

/-- Lines 74-75: the `(size, ring)` pairs passed to `render_icon` by the PNG
loop (`ring=(n>=64)`). -/
def png_jobs : List (Nat × Bool) := png_sizes.map (fun n => (n, decide (64 ≤ n)))

/-- Line 76: the file name `icon-{n}.png`. -/
def iconName (n : Nat) : String := "icon-" ++ toString n ++ ".png"

/-- Lines 74-138: every file name the script writes, in script order — the
PNG loop, the four renamed copies, the ICO bundle, the apple touch icon, the
two SVGs and the manifest. -/
def outputFiles : List String :=
  png_sizes.map iconName
    ++ ["favicon-16x16.png", "favicon-32x32.png",
        "android-chrome-192x192.png", "android-chrome-512x512.png"]
    ++ ["favicon.ico"]
    ++ ["apple-touch-icon.png"]
    ++ ["favicon.svg", "safari-pinned-tab.svg"]
    ++ ["site.webmanifest"]

/-- Two successive invocations of `render_icon` with the same arguments, as
performed by re-running the script: the module has no mutable state read by
`render_icon`, so each run is the same pure function of `(size, ring)`. -/
def render_twice (size : Nat) (ring : Bool) : Image × Image :=
  (render_icon size ring, render_icon size ring)

end FaviconGen

namespace FaviconGen

/-! ### Pixel characterizations of the drawing operations -/

/-- A filled ellipse pixel is the fill color or the underlying pixel. -/
theorem drawEllipse_pix_cases (x0 y0 x1 y1 : Int) (c : RGBA) (img : Image) (x y : Int) :
    (drawEllipse x0 y0 x1 y1 c img).pix x y = c ∨
    (drawEllipse x0 y0 x1 y1 c img).pix x y = img.pix x y := by
  unfold drawEllipse
  dsimp only
  split
  · exact Or.inl rfl
  · exact Or.inr rfl

/-- A filled rounded rectangle pixel is the fill color or the underlying pixel. -/
theorem drawRoundRect_pix_cases (x0 y0 x1 y1 R : Int) (c : RGBA) (img : Image) (x y : Int) :
    (drawRoundRect x0 y0 x1 y1 R c img).pix x y = c ∨
    (drawRoundRect x0 y0 x1 y1 R c img).pix x y = img.pix x y := by
  unfold drawRoundRect
  dsimp only
  split
  · exact Or.inl rfl
  · exact Or.inr rfl

/-- A pixel of an optionally applied ellipse outline is the stroke color or
the underlying pixel. -/
theorem guardedStrokeEllipse_pix_cases (P : Prop) [Decidable P]
    (x0 y0 x1 y1 w : Int) (c : RGBA) (img : Image) (x y : Int) :
    ((if P then strokeEllipse x0 y0 x1 y1 w c img else img).pix x y) = c ∨
    ((if P then strokeEllipse x0 y0 x1 y1 w c img else img).pix x y) = img.pix x y := by
  split
  · unfold strokeEllipse
    dsimp only
    split
    · exact Or.inl rfl
    · exact Or.inr rfl
  · exact Or.inr rfl

/-- A pixel of an optionally applied rounded-rectangle outline is the stroke
color or the underlying pixel. -/
theorem guardedStrokeRoundRect_pix_cases (P : Prop) [Decidable P]
    (x0 y0 x1 y1 R w : Int) (c : RGBA) (img : Image) (x y : Int) :
    ((if P then strokeRoundRect x0 y0 x1 y1 R w c img else img).pix x y) = c ∨
    ((if P then strokeRoundRect x0 y0 x1 y1 R w c img else img).pix x y) = img.pix x y := by
  split
  · unfold strokeRoundRect
    dsimp only
    split
    · exact Or.inl rfl
    · exact Or.inr rfl
  · exact Or.inr rfl

/-- Without eyes, `draw_mushroom` paints only `FG` (fills) and `OUTL`
(outlines): every pixel is one of those or the underlying image pixel. -/
theorem draw_mushroom_pix_no_eyes (size op : Nat) (img : Image) (x y : Int) :
    (draw_mushroom size false op img).pix x y = FG ∨
    (draw_mushroom size false op img).pix x y = OUTL ∨
    (draw_mushroom size false op img).pix x y = img.pix x y := by
  unfold draw_mushroom
  dsimp only
  rw [if_neg (by decide : ¬ (false = true))]
  rcases drawRoundRect_pix_cases (92*(size:Int)) (122*(size:Int)) (164*(size:Int))
      (218*(size:Int)) (256 * ((18 * size / 256 : Nat) : Int)) FG _ x y with h1 | h1
  · exact Or.inl h1
  rw [h1]
  rcases guardedStrokeRoundRect_pix_cases (op ≠ 0) (92*(size:Int)) (122*(size:Int))
      (164*(size:Int)) (218*(size:Int)) (256 * ((18 * size / 256 : Nat) : Int))
      (256*(op:Int)) OUTL _ x y with h2 | h2
  · exact Or.inr (Or.inl h2)
  rw [h2]
  rcases drawEllipse_pix_cases (36*(size:Int)) (22*(size:Int)) (220*(size:Int))
      (158*(size:Int)) FG _ x y with h3 | h3
  · exact Or.inl h3
  rw [h3]
  rcases guardedStrokeEllipse_pix_cases (op ≠ 0) (36*(size:Int)) (22*(size:Int))
      (220*(size:Int)) (158*(size:Int)) (256*(op:Int)) OUTL img x y with h4 | h4
  · exact Or.inr (Or.inl h4)
  · exact Or.inr (Or.inr h4)

/-! ### Alpha bounds through the pipeline -/

/-- A list of naturals all bounded by `M` sums to at most `length * M`. -/
theorem list_sum_le (l : List Nat) (M : Nat) (h : ∀ x ∈ l, x ≤ M) :
    l.sum ≤ l.length * M := by
  induction l with
  | nil => simp
  | cons a t ih =>
      simp only [List.sum_cons, List.length_cons]
      have ha := h a (List.mem_cons_self a t)
      have ht := ih (fun x hx => h x (List.mem_cons_of_mem a hx))
      calc a + t.sum ≤ M + t.length * M := Nat.add_le_add ha ht
        _ = (t.length + 1) * M := by ring

/-- A window sum of a bounded function is at most window-area times bound. -/
theorem sumWindow_le (rad : Nat) (f : Int → Int → Nat) (x y : Int) (M : Nat)
    (h : ∀ u v, f u v ≤ M) :
    sumWindow rad f x y ≤ (2*rad + 1) * (2*rad + 1) * M := by
  unfold sumWindow
  have hlen : (offsets rad).length = 2*rad + 1 := by
    unfold offsets
    rw [List.length_map, List.length_range]
  have houter : ∀ z ∈ (offsets rad).map
      (fun dx => ((offsets rad).map (fun dy => f (x + dx) (y + dy))).sum),
      z ≤ (2*rad + 1) * M := by
    intro z hz
    rcases List.mem_map.1 hz with ⟨dx, _, rfl⟩
    have hin : ∀ w ∈ (offsets rad).map (fun dy => f (x + dx) (y + dy)), w ≤ M := by
      intro w hw
      rcases List.mem_map.1 hw with ⟨dy, _, rfl⟩
      exact h _ _
    have := list_sum_le _ M hin
    rwa [List.length_map, hlen] at this
  have := list_sum_le _ ((2*rad + 1) * M) houter
  rw [List.length_map, hlen, ← Nat.mul_assoc] at this
  exact this

/-- Blurring cannot raise the alpha channel above a pointwise bound. -/
theorem boxBlur_a_le (size rad : Nat) (img : Image) (M : Nat)
    (h : ∀ x y, (img.pix x y).a ≤ M) :
    ∀ x y, ((boxBlur size rad img).pix x y).a ≤ M := by
  intro x y
  unfold boxBlur
  split
  · exact h x y
  · show sumWindow rad (fun u v => (img.pix (clampTo size u) (clampTo size v)).a) x y
        / ((2*rad + 1) * (2*rad + 1)) ≤ M
    have hb := sumWindow_le rad
      (fun u v => (img.pix (clampTo size u) (clampTo size v)).a) x y M
      (fun u v => h _ _)
    have hn : 0 < (2*rad + 1) * (2*rad + 1) := by positivity
    exact le_trans (Nat.div_le_div_right hb)
      (le_of_eq (Nat.mul_div_cancel_left M hn))

/-- The canvas `d` points to has alpha at most 230 everywhere (the ring
color has alpha 230, the rest is transparent). -/
theorem dCanvas_a_le (size : Nat) (ring : Bool) :
    ∀ x y, ((dCanvas size ring).pix x y).a ≤ 230 := by
  intro x y
  cases ring with
  | false => exact Nat.zero_le 230
  | true =>
      show ((drawRing size (blank size)).pix x y).a ≤ 230
      unfold drawRing strokeEllipse
      dsimp only
      split
      · decide
      · exact Nat.zero_le 230

/-- The canvas `im` denotes after line 50 has alpha at most 230 everywhere. -/
theorem imRing_a_le (size : Nat) (ring : Bool) :
    ∀ x y, ((imRing size ring).pix x y).a ≤ 230 := by
  cases ring with
  | false => exact dCanvas_a_le size false
  | true =>
      exact boxBlur_a_le size (ring_blur_radius size) (dCanvas size true) 230
        (dCanvas_a_le size true)

/-- The bare silhouette has alpha at most 255 everywhere. -/
theorem silhouette_a_le (size : Nat) :
    ∀ x y, ((silhouette size).pix x y).a ≤ 255 := by
  intro x y
  unfold silhouette
  rcases draw_mushroom_pix_no_eyes size 0 (blank size) x y with h | h | h <;> rw [h]
  · decide
  · decide
  · exact Nat.zero_le 255

/-- The 22 percent scaling maps a channel bounded by 255 to at most 56. -/
theorem evalPx22_le (p : Nat) (h : p ≤ 255) : evalPx22 p ≤ 56 := by
  unfold evalPx22
  omega

/-- The finished shadow layer has alpha at most 56 everywhere. -/
theorem shadowLayer_a_le (size : Nat) :
    ∀ x y, ((shadowLayer size).pix x y).a ≤ 56 := by
  intro x y
  have hblur := boxBlur_a_le size (shadow_blur_radius size) (silhouette size) 255
    (silhouette_a_le size) x y
  exact evalPx22_le _ hblur

/-- Compositing a source of alpha at most 56 over a destination of alpha at
most 230 yields alpha at most 235. -/
theorem overPx_a_le (d s : RGBA) (hd : d.a ≤ 230) (hs : s.a ≤ 56) :
    (overPx d s).a ≤ 235 := by
  unfold overPx
  dsimp only
  split
  · decide
  · show s.a + d.a * (255 - s.a) / 255 ≤ 235
    have h1 : d.a * (255 - s.a) ≤ 230 * (255 - s.a) :=
      Nat.mul_le_mul_right _ hd
    omega

/-- After the shadow composite, every pixel has alpha at most 235; in
particular no fully opaque pixel exists at that stage. -/
theorem imShadow_a_le (size : Nat) (ring : Bool) (x y : Int) :
    ((imShadow size ring).pix x y).a ≤ 235 := by
  show (overPx ((imRing size ring).pix x y) ((shadowLayer size).pix x y)).a ≤ 235
  exact overPx_a_le _ _ (imRing_a_le size ring x y) (shadowLayer_a_le size x y)

/-- A pixel with alpha at most 235 is not the eye color (alpha 255). -/
theorem ne_eyes_of_a_le (c : RGBA) (h : c.a ≤ 235) : c ≠ EYES := by
  intro he
  rw [he] at h
  exact absurd h (by decide)

/-- Eyes are disabled by the detail selection for every size up to 47. -/
theorem eyes_false_of_le47 (size : Nat) (h : size ≤ 47) :
    eyes_enabled size = false := by
  unfold eyes_enabled
  split
  · rfl
  · split
    · rfl
    · omega

/-- No pixel of `render_icon size ring` is eye-colored when `size ≤ 47`:
with `ring` the returned image is only ring plus shadow (alpha at most 235),
and without `ring` the glyph is drawn with eyes disabled, painting only `FG`
and `OUTL` over the low-alpha composite. -/
theorem no_eye_pixel_of_le47 (size : Nat) (ring : Bool) (x y : Int)
    (h : size ≤ 47) :
    (render_icon size ring).pix x y ≠ EYES := by
  cases ring with
  | true => exact ne_eyes_of_a_le _ (imShadow_a_le size true x y)
  | false =>
      have hmain : render_icon size false
          = draw_mushroom size false (outline_px size) (imShadow size false) := by
        show draw_mushroom size (eyes_enabled size) (outline_px size) (imShadow size false)
            = draw_mushroom size false (outline_px size) (imShadow size false)
        rw [eyes_false_of_le47 size h]
      rw [hmain]
      rcases draw_mushroom_pix_no_eyes size (outline_px size)
          (imShadow size false) x y with h1 | h1 | h1 <;> rw [h1]
      · decide
      · decide
      · exact ne_eyes_of_a_le _ (imShadow_a_le size false x y)

end FaviconGen

namespace FaviconGen

/-! ### The claims -/

/-- C1: at size 16 without ring the renderer yields a 16×16 image, the detail
selection picks outline width 1, and no pixel is eye-colored; but at size 256
with ring the eye-colored pixels the spec requires are absent — line 50
rebinds `im` to the blurred copy while `d` (line 41) still draws into the
original canvas, so the glyph of line 70 never reaches the returned image and
every returned pixel has alpha at most 235 < 255, the alpha of `EYES`. -/
theorem claim1_render16_ok_render256_ring_loses_eyes :
    (render_icon 16 false).width = 16 ∧ (render_icon 16 false).height = 16 ∧
    outline_px 16 = 1 ∧
    (∀ x y : Int, (render_icon 16 false).pix x y ≠ EYES) ∧
    (∀ x y : Int, (render_icon 256 true).pix x y ≠ EYES) :=
  ⟨rfl, rfl, by decide,
   fun x y => no_eye_pixel_of_le47 16 false x y (by decide),
   fun x y => ne_eyes_of_a_le _ (imShadow_a_le 256 true x y)⟩

/-- C2 counterexample: the claim gives sizes ≤ 24 outline width 1, but the
code (line 64, `2 if size >= 24 else 1`) gives size 24 outline width 2. -/
theorem claim2_cex_outline_at_24 : outline_px 24 ≠ 1 := by decide

/-- C2 (amended): the detail selection is — sizes ≤ 23 get outline width 1
and no eyes; sizes 24–32 get outline width 2 and no eyes; sizes 33–47 get
outline width 1 and no eyes; sizes ≥ 48 get no outline and eyes enabled. -/
theorem claim2_detail_thresholds (size : Nat) :
    outline_px size
      = (if size ≤ 23 then 1 else if size ≤ 32 then 2 else if size ≤ 47 then 1 else 0) ∧
    eyes_enabled size = decide (48 ≤ size) := by
  constructor
  · unfold outline_px
    split_ifs <;> omega
  · unfold eyes_enabled
    split_ifs with h1 h2
    · have h : ¬ (48 ≤ size) := by omega
      simp [h]
    · have h : ¬ (48 ≤ size) := by omega
      simp [h]
    · have h : 48 ≤ size := by omega
      simp [h]

/-- C3: for each supported size and either ring flag, the rendered image is
exactly size × size and its center pixel is not fully transparent. -/
theorem claim3_supported_sizes_center (size : Nat) (ring : Bool)
    (h : size ∈ png_sizes) :
    (render_icon size ring).width = size ∧ (render_icon size ring).height = size ∧
    0 < ((render_icon size ring).pix ((size : Int)/2) ((size : Int)/2)).a := by
  simp only [png_sizes] at h
  fin_cases h <;> cases ring <;> exact ⟨rfl, rfl, by decide⟩

/-- C3 witness: the 16-pixel render without ring is 16×16 with an opaque
center. -/
theorem claim3_witness :
    (render_icon 16 false).width = 16 ∧ (render_icon 16 false).height = 16 ∧
    0 < ((render_icon 16 false).pix ((16 : Int)/2) ((16 : Int)/2)).a :=
  claim3_supported_sizes_center 16 false (by decide)

/-- C4: for every size up to 47, with either ring flag, no pixel of the
returned composite is eye-colored. -/
theorem claim4_no_eye_color_below48 (size : Nat) (ring : Bool) (x y : Int)
    (h : size ≤ 47) :
    (render_icon size ring).pix x y ≠ EYES :=
  no_eye_pixel_of_le47 size ring x y h

/-- C4 witness at size 32 with ring. -/
theorem claim4_witness : (render_icon 32 true).pix 16 16 ≠ EYES :=
  claim4_no_eye_color_below48 32 true 16 16 (by decide)

/-- C5 counterexample: at size 64 — a ring size of the PNG loop — the blur
radius `max(0, int(64*0.004))` is 0, not strictly positive. -/
theorem claim5_cex_blur_radius_64 : ¬ (0 < ring_blur_radius 64) := by decide

/-- C5 (amended): with ring the ellipse is stroked at inset `int(size*0.09)`
with width `max(2, int(size*0.08)) ≥ 2` in the fixed accent color, and the
canvas is then Gaussian-blurred with radius `int(size*0.004)` — which is
positive only for sizes ≥ 250 and zero (no blur) below that. -/
theorem claim5_ring_step (size : Nat) :
    2 ≤ ring_width size ∧
    (0 < ring_blur_radius size ↔ 250 ≤ size) ∧
    render_icon size true
      = alphaComposite
          (boxBlur size (ring_blur_radius size) (drawRing size (blank size)))
          (shadowLayer size) := by
  refine ⟨le_max_left 2 _, ?_, rfl⟩
  unfold ring_blur_radius
  omega

/-- C6: the shadow is built as specified — silhouette without eyes on a fresh
transparent layer, blurred with radius `max(1, int(size*0.03))`, scaled to
22 percent — and for ring=False it is composited under the glyph; but for
ring=True the glyph is drawn into the stale canvas (lines 41/50/70) and the
returned image contains no glyph above the shadow: every pixel keeps alpha at
most 235. -/
theorem claim6_shadow_under_glyph :
    (∀ size : Nat, shadowLayer size
        = evalImg22 (boxBlur size (shadow_blur_radius size)
            (draw_mushroom size false 0 (blank size)))) ∧
    (∀ size : Nat, render_icon size false
        = draw_mushroom size (eyes_enabled size) (outline_px size)
            (alphaComposite (imRing size false) (shadowLayer size))) ∧
    (∀ x y : Int, ((render_icon 64 true).pix x y).a ≤ 235) :=
  ⟨fun _ => rfl, fun _ => rfl, fun x y => imShadow_a_le 64 true x y⟩

/-- C7: the script writes exactly the fixed file set — the nine `icon-N.png`,
the four renamed copies, `favicon.ico`, `apple-touch-icon.png`, the two SVGs
and the manifest — with no duplicates and nothing else. -/
theorem claim7_output_file_set :
    outputFiles
      = ["icon-16.png", "icon-24.png", "icon-32.png", "icon-48.png",
         "icon-64.png", "icon-128.png", "icon-192.png", "icon-256.png",
         "icon-512.png", "favicon-16x16.png", "favicon-32x32.png",
         "android-chrome-192x192.png", "android-chrome-512x512.png",
         "favicon.ico", "apple-touch-icon.png", "favicon.svg",
         "safari-pinned-tab.svg", "site.webmanifest"] ∧
    outputFiles.Nodup := by
  constructor
  · decide
  · decide

/-- C8: rendering is deterministic — two invocations with the same
`(size, ring)` produce the same image, and the pair produced by running twice
is exactly two copies of the single pure result. -/
theorem claim8_deterministic (size : Nat) (ring : Bool) :
    (render_twice size ring).1 = (render_twice size ring).2 ∧
    render_twice size ring = (render_icon size ring, render_icon size ring) :=
  ⟨rfl, rfl⟩

/-- C9: the PNG loop passes ring=True exactly for the sizes ≥ 64 — so
icon-16/24/32/48 are rendered without a ring and icon-64 through icon-512
with one. -/
theorem claim9_ring_flags :
    png_jobs = [(16, false), (24, false), (32, false), (48, false),
                (64, true), (128, true), (192, true), (256, true), (512, true)] := by
  decide

/-- C10: `Image.eval` scales all four channels — red, green, blue and alpha —
by `int(p*0.22)`; deep inside the silhouette the composited shadow is the
fill color scaled per channel, (51, 52, 53) at alpha 56, not the fill color
at reduced alpha. -/
theorem claim10_shadow_color_scaled :
    (∀ (img : Image) (x y : Int), (evalImg22 img).pix x y
        = ⟨(img.pix x y).r * 22 / 100, (img.pix x y).g * 22 / 100,
           (img.pix x y).b * 22 / 100, (img.pix x y).a * 22 / 100⟩) ∧
    (shadowLayer 256).pix 128 150 = ⟨51, 52, 53, 56⟩ ∧
    (imShadow 256 false).pix 128 150 = ⟨51, 52, 53, 56⟩ ∧
    (⟨51, 52, 53, 56⟩ : RGBA) ≠ ⟨FG.r, FG.g, FG.b, 56⟩ :=
  ⟨fun img x y => rfl, by decide, by decide, by decide⟩

end FaviconGen
